import Mathlib

/-!
Verification development for the Arise opportunity monitor.

The development shallowly embeds the decision core of `src/monitor.py`:

* the extractor `extract_opportunities` (with its widget locator chain and
  the table scraper `extract_opportunity_details`), working over an HTML
  tree type `Node` that models the BeautifulSoup document trees the code
  consumes;
* the fingerprinting of a run state (MD5, implemented in full, over the
  UTF-8 bytes of the serialized state);
* the persisted-record handling and transition classification of
  `check_for_changes` (STEPS 5-9 of the source), with the fetch/extract
  stage of STEPS 2-4 summarized as an `Except` input, matching the spec
  boundary `fetch(url) -> markup` which may throw.

Purely logging statements of the source are not modelled; every branch
that affects the returned values, the notification, or the persisted
record is.
-/

set_option maxRecDepth 200000
set_option maxHeartbeats 2000000

/-! ### Basic string machinery (Python `str` operations used by the code) -/

/-- Whitespace characters stripped by Python `str.strip()` (ASCII set). -/
def isWs (c : Char) : Bool :=
  c == ' ' || c == '\t' || c == '\n' || c == '\r' || c == '\x0b' || c == '\x0c'

def stripLeft (l : List Char) : List Char := l.dropWhile isWs

def stripRight (l : List Char) : List Char := (l.reverse.dropWhile isWs).reverse

def stripList (l : List Char) : List Char := stripRight (stripLeft l)

/-- Python `s.strip()`. -/
def pyStrip (s : String) : String := ⟨stripList s.data⟩

/-- Python `s.lower()` (ASCII letters; all tokens compared by the code are ASCII). -/
def lowerS (s : String) : String := ⟨s.data.map Char.toLower⟩

/-- Does the list start with the given needle? -/
def startsWithL : List Char → List Char → Bool
  | [], _ => true
  | _ :: _, [] => false
  | a :: as, b :: bs => a == b && startsWithL as bs

/-- Python `needle in hay` (contiguous substring test). -/
def containsSub : List Char → List Char → Bool
  | [], needle => needle.isEmpty
  | a :: t, needle => startsWithL needle (a :: t) || containsSub t needle

/-- Python `needle in hay` on strings. -/
def containsS (hay needle : String) : Bool := containsSub hay.data needle.data

/-- Concatenation of a list of strings (`"".join`, and the model of
BeautifulSoup `get_text()` which joins with the empty separator). -/
def joinS : List String → String
  | [] => ""
  | s :: rest => s ++ joinS rest

/-- Python `",".join`. -/
def joinComma : List String → String
  | [] => ""
  | [s] => s
  | s :: rest => s ++ "," ++ joinComma rest

/-- Python `" ".join`. -/
def joinSpace : List String → String
  | [] => ""
  | [s] => s
  | s :: rest => s ++ " " ++ joinSpace rest

/-- Split off everything before the first `|`, returning it with the rest. -/
def breakPipe : List Char → Option (List Char × List Char)
  | [] => none
  | c :: rest =>
      if c == '|' then some ([], rest)
      else
        match breakPipe rest with
        | some (a, b) => some (c :: a, b)
        | none => none

/-- Python `s.split("|", 2)` unpacked into exactly three fields, as done by
`previous_hash, previous_state_str, previous_details = previous_state.split('|', 2)`;
`none` models the `ValueError` raised when fewer than three fields result. -/
def pySplit2 (s : String) : Option (String × String × String) :=
  match breakPipe s.data with
  | none => none
  | some (a, r1) =>
      match breakPipe r1 with
      | none => none
      | some (b, r2) => some (⟨a⟩, ⟨b⟩, ⟨r2⟩)

/-! ### MD5 (`hashlib.md5(...).hexdigest()`), over `Nat` with explicit mod 2^32 -/

def w32 (n : Nat) : Nat := n % 4294967296

def rotl32 (x c : Nat) : Nat := w32 (x * 2 ^ c + x / 2 ^ (32 - c))

def md5F (b c d : Nat) : Nat := (b &&& c) ||| ((b ^^^ 4294967295) &&& d)

def md5G (b c d : Nat) : Nat := (d &&& b) ||| ((d ^^^ 4294967295) &&& c)

def md5H (b c d : Nat) : Nat := b ^^^ c ^^^ d

def md5I (b c d : Nat) : Nat := c ^^^ (b ||| (d ^^^ 4294967295))

def md5K : List Nat :=
  [0xd76aa478, 0xe8c7b756, 0x242070db, 0xc1bdceee,
   0xf57c0faf, 0x4787c62a, 0xa8304613, 0xfd469501,
   0x698098d8, 0x8b44f7af, 0xffff5bb1, 0x895cd7be,
   0x6b901122, 0xfd987193, 0xa679438e, 0x49b40821,
   0xf61e2562, 0xc040b340, 0x265e5a51, 0xe9b6c7aa,
   0xd62f105d, 0x02441453, 0xd8a1e681, 0xe7d3fbc8,
   0x21e1cde6, 0xc33707d6, 0xf4d50d87, 0x455a14ed,
   0xa9e3e905, 0xfcefa3f8, 0x676f02d9, 0x8d2a4c8a,
   0xfffa3942, 0x8771f681, 0x6d9d6122, 0xfde5380c,
   0xa4beea44, 0x4bdecfa9, 0xf6bb4b60, 0xbebfbc70,
   0x289b7ec6, 0xeaa127fa, 0xd4ef3085, 0x04881d05,
   0xd9d4d039, 0xe6db99e5, 0x1fa27cf8, 0xc4ac5665,
   0xf4292244, 0x432aff97, 0xab9423a7, 0xfc93a039,
   0x655b59c3, 0x8f0ccc92, 0xffeff47d, 0x85845dd1,
   0x6fa87e4f, 0xfe2ce6e0, 0xa3014314, 0x4e0811a1,
   0xf7537e82, 0xbd3af235, 0x2ad7d2bb, 0xeb86d391]

def md5S : List Nat :=
  [7, 12, 17, 22, 7, 12, 17, 22, 7, 12, 17, 22, 7, 12, 17, 22,
   5, 9, 14, 20, 5, 9, 14, 20, 5, 9, 14, 20, 5, 9, 14, 20,
   4, 11, 16, 23, 4, 11, 16, 23, 4, 11, 16, 23, 4, 11, 16, 23,
   6, 10, 15, 21, 6, 10, 15, 21, 6, 10, 15, 21, 6, 10, 15, 21]

def md5Round (M : List Nat) (st : Nat × Nat × Nat × Nat) (i : Nat) : Nat × Nat × Nat × Nat :=
  let a := st.1
  let b := st.2.1
  let c := st.2.2.1
  let d := st.2.2.2
  let f := if i < 16 then md5F b c d else if i < 32 then md5G b c d
           else if i < 48 then md5H b c d else md5I b c d
  let g := if i < 16 then i else if i < 32 then (5 * i + 1) % 16
           else if i < 48 then (3 * i + 5) % 16 else (7 * i) % 16
  let tmp := w32 (a + f + md5K.getD i 0 + M.getD g 0)
  (d, w32 (b + rotl32 tmp (md5S.getD i 0)), b, c)

/-- Decode a byte list into 32-bit little-endian words. -/
def leWords : List Nat → List Nat
  | b0 :: b1 :: b2 :: b3 :: rest =>
      (b0 + 256 * b1 + 65536 * b2 + 16777216 * b3) :: leWords rest
  | _ => []

def md5Chunk (st : Nat × Nat × Nat × Nat) (chunk : List Nat) : Nat × Nat × Nat × Nat :=
  let M := leWords chunk
  let r := (List.range 64).foldl (md5Round M) st
  (w32 (st.1 + r.1), w32 (st.2.1 + r.2.1), w32 (st.2.2.1 + r.2.2.1), w32 (st.2.2.2 + r.2.2.2))

def lenBytes8 (n : Nat) : List Nat :=
  [n % 256, n / 256 % 256, n / 65536 % 256, n / 16777216 % 256,
   n / 4294967296 % 256, n / 1099511627776 % 256,
   n / 281474976710656 % 256, n / 72057594037927936 % 256]

def md5Pad (msg : List Nat) : List Nat :=
  let L := msg.length
  let zeros := (120 - (L + 1) % 64) % 64
  msg ++ [128] ++ List.replicate zeros 0 ++ lenBytes8 (8 * L)

def chunksGo : List Nat → Nat → List Nat → List (List Nat)
  | [], _, acc => if acc.isEmpty then [] else [acc.reverse]
  | b :: rest, n, acc =>
      if n = 63 then (b :: acc).reverse :: chunksGo rest 0 []
      else chunksGo rest (n + 1) (b :: acc)

def wordLEBytes (w : Nat) : List Nat :=
  [w % 256, w / 256 % 256, w / 65536 % 256, w / 16777216 % 256]

def md5Bytes (msg : List Nat) : List Nat :=
  let chunks := chunksGo (md5Pad msg) 0 []
  let r := chunks.foldl md5Chunk (0x67452301, 0xefcdab89, 0x98badcfe, 0x10325476)
  wordLEBytes r.1 ++ wordLEBytes r.2.1 ++ wordLEBytes r.2.2.1 ++ wordLEBytes r.2.2.2

def hexChar (n : Nat) : Char := if n < 10 then Char.ofNat (48 + n) else Char.ofNat (87 + n)

def byteHex (b : Nat) : List Char := [hexChar (b / 16), hexChar (b % 16)]

/-- Python `char` UTF-8 encoding (for `str.encode('utf-8')`). -/
def charUtf8 (c : Char) : List Nat :=
  let n := c.toNat
  if n < 128 then [n]
  else if n < 2048 then [192 + n / 64, 128 + n % 64]
  else if n < 65536 then [224 + n / 4096, 128 + n / 64 % 64, 128 + n % 64]
  else [240 + n / 262144, 128 + n / 4096 % 64, 128 + n / 64 % 64, 128 + n % 64]

def utf8Bytes (s : String) : List Nat := (s.data.map charUtf8).flatten

/-- `hashlib.md5(s.encode('utf-8')).hexdigest()`. -/
def md5hex (s : String) : String := ⟨((md5Bytes (utf8Bytes s)).map byteHex).flatten⟩

/-! ### HTML document trees (the BeautifulSoup values the extractor walks) -/

/-- An HTML node: an element with tag name, `id` attribute (empty string models
an absent id), `class` attribute (empty list models an absent class), and
children; or a text node (`NavigableString`). -/
inductive Node where
  | elem (tag : String) (idAttr : String) (classes : List String) (children : List Node)
  | text (s : String)

def Node.tagOf : Node → String
  | .elem t _ _ _ => t
  | .text _ => ""

mutual
/-- The strings of all descendant text nodes in document order. -/
def textPieces : Node → List String
  | .text s => [s]
  | .elem _ _ _ cs => textPiecesL cs
def textPiecesL : List Node → List String
  | [] => []
  | c :: rest => textPieces c ++ textPiecesL rest
end

mutual
/-- All strict descendants of a node in document (preorder) order, the
search space of BeautifulSoup `find` / `find_all`. -/
def allNodes : Node → List Node
  | .text _ => []
  | .elem _ _ _ cs => allNodesL cs
def allNodesL : List Node → List Node
  | [] => []
  | c :: rest => (c :: allNodes c) ++ allNodesL rest
end

mutual
/-- All strict descendants paired with their ancestor chains (nearest
ancestor first), supporting BeautifulSoup `find_parent`. -/
def descAnc : List Node → Node → List (Node × List Node)
  | _, .text _ => []
  | anc, .elem t i cl cs => descAncL (Node.elem t i cl cs :: anc) cs
def descAncL : List Node → List Node → List (Node × List Node)
  | _, [] => []
  | anc, c :: rest => ((c, anc) :: descAnc anc c) ++ descAncL anc rest
end

mutual
/-- BeautifulSoup `tag.string`: the single descendant string reached through
only-children, `none` otherwise. -/
def nodeString : Node → Option String
  | .text s => some s
  | .elem _ _ _ cs => listString cs
def listString : List Node → Option String
  | [c] => nodeString c
  | _ => none
end

/-- BeautifulSoup `get_text()`: concatenation of all descendant strings. -/
def getText (n : Node) : String := joinS (textPieces n)

/-- BeautifulSoup `get_text(strip=True)`: each descendant string stripped,
empty results skipped, remainder concatenated. -/
def getTextStrip (n : Node) : String :=
  joinS (((textPieces n).map pyStrip).filter (fun s => s != ""))

/-- `find_all` with a node predicate: matching strict descendants in order. -/
def findAllNodes (p : Node → Bool) (n : Node) : List Node := (allNodes n).filter p

/-- `find` with a node predicate: first matching strict descendant. -/
def findFirstNode (p : Node → Bool) (n : Node) : Option Node := (allNodes n).find? p

def isTag (t : String) (n : Node) : Bool :=
  match n with
  | .elem tg _ _ _ => tg == t
  | .text _ => false

def firstSome {α β : Type} (f : α → Option β) : List α → Option β
  | [] => none
  | a :: r =>
      match f a with
      | some b => some b
      | none => firstSome f r

/-! ### Widget locator (`extract_opportunities`, methods 1-5, source lines 96-147) -/

/-- Method 1 matcher: `soup.find('div', id=lambda x: x and
'opportunityannouncementwidget' in x.lower())`. -/
def idTokenMatch (n : Node) : Bool :=
  match n with
  | .elem t i _ _ =>
      t == "div" && (i != "" && containsS (lowerS i) "opportunityannouncementwidget")
  | .text _ => false

/-- Method 2 matcher: `class_matcher` over the `class` attribute list. -/
def classTokenMatch (n : Node) : Bool :=
  match n with
  | .elem t _ cls _ =>
      t == "div" &&
        (!cls.isEmpty && cls.any (fun c => containsS (lowerS c) "opportunityannouncementwidget"))
  | .text _ => false

/-- Method 3: find a text node containing "Program Announcement", take its
nearest `div` ancestor, and search that subtree for the widget id. -/
def method3 (soup : Node) : Option Node :=
  match (descAnc [] soup).find? (fun p =>
      match p.1 with
      | .text s => containsS s "Program Announcement"
      | .elem _ _ _ _ => false) with
  | none => none
  | some pr =>
      match pr.2.find? (fun a => a.tagOf == "div") with
      | none => none
      | some parent => findFirstNode idTokenMatch parent

/-- Method 4 script matcher: scripts whose string mentions the widget token. -/
def scriptTokenMatch (n : Node) : Bool :=
  match n with
  | .elem t _ _ _ =>
      t == "script" &&
        (match nodeString n with
         | some s => containsS (lowerS s) "opportunityannouncementwidget"
         | none => false)
  | .text _ => false

/-- Method 4: for each such script, search its direct parent's subtree for
the widget id, taking the first success. -/
def method4 (soup : Node) : Option Node :=
  firstSome
    (fun p =>
      match p.2.head? with
      | some parent => findFirstNode idTokenMatch parent
      | none => none)
    ((descAnc [] soup).filter (fun p => scriptTokenMatch p.1))

/-- Method 5 matcher: any div with both "opportunity" and "announcement" in
its id, or failing that in its space-joined class string. -/
def broadDivMatch (n : Node) : Bool :=
  match n with
  | .elem t i cls _ =>
      t == "div" &&
        (let di := lowerS i
         let dc := lowerS (joinSpace cls)
         if containsS di "opportunity" && containsS di "announcement" then true
         else if containsS dc "opportunity" && containsS dc "announcement" then true
         else false)
  | .text _ => false

/-- Method 5: the broad-search fallback over all divs. -/
def method5 (soup : Node) : Option Node := findFirstNode broadDivMatch soup

/-- The widget locator chain of `extract_opportunities` (methods 1-5 tried
in order). -/
def locate_widget (soup : Node) : Option Node :=
  match findFirstNode idTokenMatch soup with
  | some w => some w
  | none =>
  match findFirstNode classTokenMatch soup with
  | some w => some w
  | none =>
  match method3 soup with
  | some w => some w
  | none =>
  match method4 soup with
  | some w => some w
  | none => method5 soup


/-! ### `extract_opportunity_details` (source lines 270-292) -/

/-- Row filter of `extract_opportunity_details`: first `td` cell's stripped
text, kept when non-empty and not the sentinel. -/
def row_first_cell_item (row : Node) : List String :=
  match findAllNodes (isTag "td") row with
  | [] => []
  | c0 :: _ =>
      if getTextStrip c0 != "" && getTextStrip c0 != "No Data" &&
          decide ((getTextStrip c0).length > 0)
      then [getTextStrip c0] else []

/-- Body of the row loop of `extract_opportunity_details`: when the row has
at least one `td` cell, append the first cell's stripped text if it is
non-empty and not the sentinel. -/
def detail_row_step (acc : List String) (row : Node) : List String :=
  match findAllNodes (isTag "td") row with
  | [] => acc
  | c0 :: _ =>
      let name := getTextStrip c0
      if name != "" && name != "No Data" && decide (name.length > 0)
      then acc ++ [name] else acc

/-- `extract_opportunity_details(widget)`: loop over all tables, over the
rows after the first `tr`, appending the first cell's text when usable. -/
def extract_opportunity_details (widget : Node) : List String :=
  (findAllNodes (isTag "table") widget).foldl
    (fun acc table => ((findAllNodes (isTag "tr") table).drop 1).foldl detail_row_step acc)
    []

/-- Declarative form of the same extraction, in table order then row order. -/
def opportunity_rows_spec (widget : Node) : List String :=
  ((findAllNodes (isTag "table") widget).map
    (fun t => (((findAllNodes (isTag "tr") t).drop 1).map row_first_cell_item).flatten)).flatten

/-! ### `extract_opportunities` decision logic (source lines 163-241) -/

/-- Direct widget-text check: `'No Data' in widget_text`. -/
def widget_text_no_data (w : Node) : Bool := containsS (getText w) "No Data"

/-- `h4` alert-class matcher of the "No Data" scan. -/
def h4AlertMatch (n : Node) : Bool :=
  match n with
  | .elem t _ cls _ =>
      t == "h4" && (!cls.isEmpty && containsS (lowerS (joinSpace cls)) "alert")
  | .text _ => false

/-- Any alert-styled `h4` in the widget whose text contains "No Data". -/
def h4_no_data (w : Node) : Bool :=
  (findAllNodes h4AlertMatch w).any (fun h => containsS (getText h) "No Data")

/-- `script` tags (of the whole page) mentioning `sEmptyTable`. -/
def sEmptyTableMatch (n : Node) : Bool :=
  match n with
  | .elem t _ _ _ =>
      t == "script" &&
        (match nodeString n with
         | some s => containsS s "sEmptyTable"
         | none => false)
  | .text _ => false

/-- DataTables empty-state check: an `sEmptyTable` script containing
"No Data" and (case-insensitively) "opportunity". -/
def script_no_data (soup : Node) : Bool :=
  (findAllNodes sEmptyTableMatch soup).any (fun sc =>
    match nodeString sc with
    | some s => containsS s "No Data" && containsS (lowerS s) "opportunity"
    | none => false)

/-- The `no_data_found` flag: widget text or alert `h4`, and only if both
fail, the page-level DataTables configuration. -/
def no_data_check (w soup : Node) : Bool :=
  if widget_text_no_data w || h4_no_data w then true else script_no_data soup

/-- `has_table_data`: some table with more than one row has a row after the
header whose `td`/`th` cells include non-blank text. -/
def has_table_data (w : Node) : Bool :=
  (findAllNodes (isTag "table") w).any (fun table =>
    let rows := findAllNodes (isTag "tr") table
    decide (rows.length > 1) &&
      (rows.drop 1).any (fun row =>
        let cells := findAllNodes (fun c => isTag "td" c || isTag "th" c) row
        !cells.isEmpty && cells.any (fun c => getTextStrip c != "")))

/-- `has_table_data or widget_text.strip() and 'Loading' not in widget_text`. -/
def widget_has_content (w : Node) : Bool :=
  has_table_data w || (pyStrip (getText w) != "" && !(containsS (getText w) "Loading"))

/-- The generic item used when detail extraction yields nothing. -/
def placeholderOpp : String := "New opportunities available - check Arise portal for details"

/-- The located-widget part of `extract_opportunities` (lines 163-241). -/
def extract_widget (w soup : Node) : List String × Bool :=
  if no_data_check w soup then ([], false)
  else if widget_has_content w then
    (let opportunities := extract_opportunity_details w
     (if opportunities.isEmpty then [placeholderOpp] else opportunities, true))
  else ([], false)

/-- `extract_opportunities(soup)`, returning
`(current_opportunities, has_opportunities_now)`. When no widget is located
both fallback branches return `([], False)`. -/
def extract_opportunities (soup : Node) : List String × Bool :=
  match locate_widget soup with
  | none =>
      let pageText := getText soup
      if containsS pageText "No Data" &&
          (containsS (lowerS pageText) "opportunity" || containsS (lowerS pageText) "announcement")
      then ([], false)
      else ([], false)
  | some w => extract_widget w soup

/-! ### State fingerprinting and the run (`check_for_changes`, lines 703-798) -/

/-- STEP 6: the current state string. -/
def state_kind (has : Bool) : String :=
  if has then "OPPORTUNITIES_AVAILABLE" else "NO_DATA"

/-- STEP 6: the `state_details` string. -/
def state_details (has : Bool) (opps : List String) : String :=
  if has then (if !opps.isEmpty then joinComma opps else "opportunities_available") else ""

/-- `current_state_hash = hashlib.md5(f"{current_state}:{state_details}".encode('utf-8')).hexdigest()`. -/
def state_hash (has : Bool) (opps : List String) : String :=
  md5hex (state_kind has ++ ":" ++ state_details has opps)

/-- The record text written to `previous_state.txt`:
`f"{current_state_hash}|{current_state}|{state_details}"`. -/
def record_line (has : Bool) (opps : List String) : String :=
  state_hash has opps ++ "|" ++ state_kind has ++ "|" ++ state_details has opps

/-- STEP 7: parsing the previous record; a `ValueError` leaves three empty
fields. -/
def parse_previous (content : String) : String × String × String :=
  match pySplit2 content with
  | some t => t
  | none => ("", "", "")

/-- STEP 8: change detection, hash comparison first, then the kind pair. -/
def detect_change (current_state_hash current_state previous_hash previous_state_str : String) :
    Bool × String :=
  if current_state_hash != previous_hash then
    if current_state == "OPPORTUNITIES_AVAILABLE" && previous_state_str == "NO_DATA" then
      (true, "new_opportunities")
    else if current_state == "NO_DATA" && previous_state_str == "OPPORTUNITIES_AVAILABLE" then
      (true, "opportunities_removed")
    else (true, "opportunities_updated")
  else (false, "opportunities_updated")

/-- Observable outcome of one run: the record written to
`previous_state.txt` (if any), the `change_type` of the email notification
sent (if any), and the boolean return value. -/
structure RunOutcome where
  saved : Option String
  notified : Option String
  ok : Bool
deriving DecidableEq

/-- STEPS 5-9 of `check_for_changes` plus the enclosing `except` handler.
`previousFile` is the stored `previous_state.txt` content (`none` models
`FileNotFoundError`); `fetched` is the outcome of the fetch/extract stage
(STEPS 2-4), `Except.error` modelling any exception it raises. -/
def check_for_changes (previousFile : Option String)
    (fetched : Except String (List String × Bool)) : RunOutcome :=
  match fetched with
  | .error _ => ⟨none, some "error", false⟩
  | .ok (current_opportunities, has_opportunities_now) =>
      let current_state := state_kind has_opportunities_now
      let details := state_details has_opportunities_now current_opportunities
      let current_state_hash := md5hex (current_state ++ ":" ++ details)
      match previousFile with
      | none =>
          ⟨some (current_state_hash ++ "|" ++ current_state ++ "|" ++ details),
           if has_opportunities_now then some "new_opportunities" else none, true⟩
      | some content =>
          let prev := parse_previous (pyStrip content)
          let change := detect_change current_state_hash current_state prev.1 prev.2.1
          if change.1 then
            ⟨some (current_state_hash ++ "|" ++ current_state ++ "|" ++ details),
             some change.2, true⟩
          else ⟨none, none, true⟩

/-! ### Basic facts about the run model -/

theorem check_none_eq (opps : List String) (has : Bool) :
    check_for_changes none (Except.ok (opps, has)) =
      ⟨some (record_line has opps), if has then some "new_opportunities" else none, true⟩ := rfl

theorem check_some_eq (content : String) (opps : List String) (has : Bool) :
    check_for_changes (some content) (Except.ok (opps, has)) =
      if (detect_change (state_hash has opps) (state_kind has)
            (parse_previous (pyStrip content)).1 (parse_previous (pyStrip content)).2.1).1
      then ⟨some (record_line has opps),
            some (detect_change (state_hash has opps) (state_kind has)
              (parse_previous (pyStrip content)).1 (parse_previous (pyStrip content)).2.1).2,
            true⟩
      else ⟨none, none, true⟩ := rfl

theorem md5hex_ne_empty (s : String) : md5hex s ≠ "" := by
  intro h
  have h2 := congrArg String.data h
  simp [md5hex, md5Bytes, wordLEBytes, byteHex] at h2

theorem state_hash_ne_empty (has : Bool) (opps : List String) : state_hash has opps ≠ "" :=
  md5hex_ne_empty _

theorem detect_change_of_eq (h s q : String) :
    detect_change h s h q = (false, "opportunities_updated") := by
  simp [detect_change]

theorem detect_change_of_ne (h s p q : String) (hne : h ≠ p) :
    detect_change h s p q =
      (true,
       if s == "OPPORTUNITIES_AVAILABLE" && q == "NO_DATA" then "new_opportunities"
       else if s == "NO_DATA" && q == "OPPORTUNITIES_AVAILABLE" then "opportunities_removed"
       else "opportunities_updated") := by
  simp [detect_change, hne]
  split_ifs <;> rfl

/-! ### Claim C1 -/

/-- Claim C1 (amended): the classifier of `check_for_changes` is driven first
by fingerprint equality, not by the kind pair. With no previous record the
run notifies exactly when the current kind is AVAILABLE. With a parseable
previous record, an equal stored fingerprint yields no transition and no
notification regardless of the kinds; on a differing fingerprint,
EMPTY-to-AVAILABLE notifies as `new_opportunities`, AVAILABLE-to-EMPTY as
`opportunities_removed`, and every other kind pair (including
EMPTY-to-EMPTY) as `opportunities_updated`. -/
theorem C1_amended (content ph ps pd : String) (opps : List String) (has : Bool)
    (hparse : pySplit2 (pyStrip content) = some (ph, ps, pd)) :
    ((check_for_changes none (Except.ok (opps, has))).notified =
        (if has then some "new_opportunities" else none)) ∧
    (state_hash has opps = ph →
       check_for_changes (some content) (Except.ok (opps, has)) = ⟨none, none, true⟩) ∧
    (state_hash has opps ≠ ph →
       (check_for_changes (some content) (Except.ok (opps, has))).notified =
         some (if has = true ∧ ps = "NO_DATA" then "new_opportunities"
               else if has = false ∧ ps = "OPPORTUNITIES_AVAILABLE" then "opportunities_removed"
               else "opportunities_updated")) := by
  have hp : parse_previous (pyStrip content) = (ph, ps, pd) := by
    simp [parse_previous, hparse]
  refine ⟨by cases has <;> rfl, ?_, ?_⟩
  · intro heq
    rw [check_some_eq, hp]
    simp only [heq, detect_change_of_eq]
    simp
  · intro hne
    rw [check_some_eq, hp]
    simp only [detect_change_of_ne _ _ _ _ hne]
    cases has <;> simp [state_kind]

/-- Claim C1 counterexample: a parseable persisted record with kind EMPTY
whose stored fingerprint happens to equal the current AVAILABLE state's
fingerprint. The claim's EMPTY-to-AVAILABLE row demands a NEW_AVAILABILITY
notification; the code compares fingerprints first, detects no change, and
notifies nothing. -/
theorem C1_counterexample :
    pySplit2 (state_hash true ["Program X"] ++ "|NO_DATA|") =
      some (state_hash true ["Program X"], "NO_DATA", "") ∧
    (check_for_changes (some (state_hash true ["Program X"] ++ "|NO_DATA|"))
        (Except.ok (["Program X"], true))).notified = none := by
  constructor <;> decide

/-- Claim C1 witness: concrete instance of `C1_amended`. -/
theorem C1_witness :
    pySplit2 (pyStrip "aa|NO_DATA|") = some ("aa", "NO_DATA", "") ∧
    (check_for_changes (some "aa|NO_DATA|") (Except.ok ([], false))).notified =
      some "opportunities_updated" := by
  refine ⟨by decide, ?_⟩
  have h := C1_amended "aa|NO_DATA|" "aa" "NO_DATA" "" [] false (by decide)
  have h2 := h.2.2 (by decide)
  rw [h2]
  decide

/-! ### Claim C3 -/

/-- Claim C3 (amended): with a persisted record of kind EMPTY and a current
EMPTY state, the run yields no transition and no notification exactly when
the stored fingerprint field equals the canonical EMPTY fingerprint
`md5("NO_DATA:")` (which is what every program-written EMPTY record
stores); a differing stored fingerprint makes the run notify with
`opportunities_updated`. -/
theorem C3_amended (content h d : String) (opps : List String)
    (hparse : pySplit2 (pyStrip content) = some (h, "NO_DATA", d)) :
    ((check_for_changes (some content) (Except.ok (opps, false))).notified = none ↔
        h = md5hex "NO_DATA:") ∧
    (h ≠ md5hex "NO_DATA:" →
        (check_for_changes (some content) (Except.ok (opps, false))).notified =
          some "opportunities_updated") := by
  have hp : parse_previous (pyStrip content) = (h, "NO_DATA", d) := by
    simp [parse_previous, hparse]
  have hsh : state_hash false opps = md5hex "NO_DATA:" := rfl
  have hupd : h ≠ md5hex "NO_DATA:" →
      (check_for_changes (some content) (Except.ok (opps, false))).notified =
        some "opportunities_updated" := by
    intro hne
    rw [check_some_eq, hp]
    simp only [hsh]
    rw [detect_change_of_ne _ _ _ _ (fun he => hne he.symm)]
    simp [state_kind]
  refine ⟨⟨fun hnone => ?_, fun heq => ?_⟩, hupd⟩
  · by_contra hne
    rw [hupd hne] at hnone
    exact Option.noConfusion hnone
  · rw [check_some_eq, hp]
    rw [show state_hash false opps = h from hsh.trans heq.symm, detect_change_of_eq]
    simp

/-- Claim C3 counterexample: previous record `"zz|NO_DATA|"` (kind EMPTY,
stored fingerprint differing from the current EMPTY fingerprint) and a
current EMPTY state. The claim demands no notification; the run notifies
with `opportunities_updated`. -/
theorem C3_counterexample :
    (check_for_changes (some "zz|NO_DATA|") (Except.ok ([], false))).notified =
      some "opportunities_updated" := by decide

/-- Claim C3 witness: concrete instance of `C3_amended`. -/
theorem C3_witness :
    pySplit2 (pyStrip "yy|NO_DATA|") = some ("yy", "NO_DATA", "") ∧
    ((check_for_changes (some "yy|NO_DATA|") (Except.ok ([], false))).notified = none ↔
      "yy" = md5hex "NO_DATA:") := by
  refine ⟨by decide, ?_⟩
  exact (C3_amended "yy|NO_DATA|" "yy" "" [] (by decide)).1

/-! ### Claim C4 -/

/-- Claim C4 (amended): the persisted record is overwritten on the first run
and on every run where a change is detected, and whatever is written always
describes the current state; but a run with a previous record writes
nothing exactly when it sends no notification (a "no change" run leaves the
old record on disk). -/
theorem C4_amended (opps : List String) (has : Bool) (content : String) :
    ((check_for_changes none (Except.ok (opps, has))).saved = some (record_line has opps)) ∧
    ((check_for_changes (some content) (Except.ok (opps, has))).saved =
        some (record_line has opps) ∨
      (check_for_changes (some content) (Except.ok (opps, has))).saved = none) ∧
    ((check_for_changes (some content) (Except.ok (opps, has))).saved = none ↔
      (check_for_changes (some content) (Except.ok (opps, has))).notified = none) := by
  refine ⟨rfl, ?_, ?_⟩ <;> rw [check_some_eq] <;>
    cases (detect_change (state_hash has opps) (state_kind has)
      (parse_previous (pyStrip content)).1 (parse_previous (pyStrip content)).2.1).1 <;>
    simp

/-- Claim C4 counterexample: a successful "no change" run (previous record
is the canonical EMPTY record, current state EMPTY) does not overwrite the
persisted record, although the claim says every successful run does. -/
theorem C4_counterexample :
    (check_for_changes (some (record_line false [])) (Except.ok ([], false))).ok = true ∧
    (check_for_changes (some (record_line false [])) (Except.ok ([], false))).saved = none := by
  constructor <;> decide

/-! ### Claim C5 -/

/-- Claim C5 (amended): a corrupted persisted record (one that does not
split into three pipe-delimited fields) does not crash the run, but it is
not treated as a first run either: the parse failure leaves three empty
fields, the empty stored hash always differs from the current fingerprint,
and the run therefore always notifies with `opportunities_updated`
(regardless of the current kind), overwrites the record, and succeeds. -/
theorem C5_amended (content : String) (opps : List String) (has : Bool)
    (hcorrupt : pySplit2 (pyStrip content) = none) :
    check_for_changes (some content) (Except.ok (opps, has)) =
      ⟨some (record_line has opps), some "opportunities_updated", true⟩ := by
  have hp : parse_previous (pyStrip content) = ("", "", "") := by
    simp [parse_previous, hcorrupt]
  have hd : detect_change (state_hash has opps) (state_kind has) "" "" =
      (true, "opportunities_updated") := by
    rw [detect_change_of_ne (state_hash has opps) (state_kind has) "" ""
      (state_hash_ne_empty has opps)]
    cases has <;> simp [state_kind]
  rw [check_some_eq, hp]
  simp [hd]

/-- Claim C5 counterexample: with the corrupted record `"garbage"` and a
current EMPTY state the run notifies with `opportunities_updated`, while
the first-run path for the same current state (which the claim says the run
must behave exactly like) sends no notification. -/
theorem C5_counterexample :
    (check_for_changes (some "garbage") (Except.ok ([], false))).notified =
      some "opportunities_updated" ∧
    (check_for_changes none (Except.ok ([], false))).notified = none := by
  constructor <;> decide

/-- Claim C5 witness: concrete instance of `C5_amended`. -/
theorem C5_witness :
    pySplit2 (pyStrip "garbage") = none ∧
    check_for_changes (some "garbage") (Except.ok ([], false)) =
      ⟨some (record_line false []), some "opportunities_updated", true⟩ :=
  ⟨by decide, C5_amended "garbage" [] false (by decide)⟩

/-! ### Claim C6 -/

/-- Claim C6 (confirmed): when the fetch/extract stage raises, the run is
classified as an error: it dispatches an `error` notification, returns
`False`, and neither writes nor removes the persisted record, whatever
that record was. -/
theorem C6_error_run (previousFile : Option String) (msg : String) :
    check_for_changes previousFile (Except.error msg) = ⟨none, some "error", false⟩ := rfl

/-! ### Claim C7 -/

/-- The fingerprint exactly as §4.2 of the spec words it: the hash input is
the UTF-8 encoding of the kind, a colon, and the comma-joined item names.
Stated from the spec for refinement comparison against `state_hash`. -/
def fingerprint_spec (kind : String) (names : List String) : String :=
  md5hex (kind ++ ":" ++ joinComma names)

/-- Claim C7 (amended): the implemented fingerprint agrees with the spec's
`md5(kind ":" join(names))` form for every EMPTY state and for every
AVAILABLE state with at least one extracted name (real runs always have
one, thanks to the placeholder item); an AVAILABLE state with no names
instead hashes the fixed text `opportunities_available`. Reordering item
names changes the fingerprint (concrete instance), but fingerprint
equality does not imply equal ordered name sequences, because names may
themselves contain the comma separator. -/
theorem C7_amended (opps : List String) :
    (opps ≠ [] → state_hash true opps = fingerprint_spec "OPPORTUNITIES_AVAILABLE" opps) ∧
    state_hash false opps = fingerprint_spec "NO_DATA" [] ∧
    state_hash true [] = md5hex "OPPORTUNITIES_AVAILABLE:opportunities_available" ∧
    state_hash true ["a", "b"] ≠ state_hash true ["b", "a"] := by
  refine ⟨?_, rfl, rfl, by decide⟩
  intro hne
  cases opps with
  | nil => exact absurd rfl hne
  | cons c t => rfl

/-- Claim C7 counterexample: two AVAILABLE states with different ordered
item-name sequences but the same fingerprint, because the comma join of
`["a,b"]` and of `["a", "b"]` is the same serialized string. The claim's
"fingerprint equal exactly when same kind and same ordered item-name
sequence" is therefore false. -/
theorem C7_counterexample :
    state_hash true ["a,b"] = state_hash true ["a", "b"] ∧
    (["a,b"] : List String) ≠ ["a", "b"] := by
  constructor <;> decide

/-- Claim C7 witness: concrete instance of `C7_amended`. -/
theorem C7_witness :
    (["x"] : List String) ≠ [] ∧
    state_hash true ["x"] = fingerprint_spec "OPPORTUNITIES_AVAILABLE" ["x"] :=
  ⟨by decide, (C7_amended ["x"]).1 (by decide)⟩

/-! ### Concrete documents used by witnesses and counterexamples -/

/-- Scenario A widget: the "No Data" alert. -/
def widgetA : Node :=
  .elem "div" "opportunityannouncementwidget" []
    [.elem "h4" "" ["alert", "alert-warning"] [.text "No Data"]]

def soupA : Node := .elem "[document]" "" [] [widgetA]

/-- Scenario B widget: one table with a header row and the data row
`["Program X", "Download", "program_x.pdf"]`. -/
def widgetB : Node :=
  .elem "div" "opportunityannouncementwidget" []
    [.elem "table" "" []
      [.elem "tr" "" []
        [.elem "th" "" [] [.text "Opportunity"],
         .elem "th" "" [] [.text "Download"],
         .elem "th" "" [] [.text "File Name"]],
       .elem "tr" "" []
        [.elem "td" "" [] [.text "Program X"],
         .elem "td" "" [] [.text "Download"],
         .elem "td" "" [] [.text "program_x.pdf"]]]]

/-- A located widget that is completely empty. -/
def widgetEmptyDiv : Node := .elem "div" "opportunityannouncementwidget" [] []

def soupEmptyWidget : Node := .elem "[document]" "" [] [widgetEmptyDiv]

/-- A widget whose only data row has an empty first cell followed by two
non-empty cells. -/
def widgetEmptyFirstCell : Node :=
  .elem "div" "opportunityannouncementwidget" []
    [.elem "table" "" []
      [.elem "tr" "" [] [.elem "th" "" [] [.text "Opportunity"]],
       .elem "tr" "" []
        [.elem "td" "" [] [],
         .elem "td" "" [] [.text "Program X"],
         .elem "td" "" [] [.text "program_x.pdf"]]]]

/-! ### Claim C9 -/

theorem extract_opportunities_of_located (soup w : Node) (h : locate_widget soup = some w) :
    extract_opportunities soup = extract_widget w soup := by
  unfold extract_opportunities
  rw [h]

theorem extract_widget_inv (w soup : Node) :
    ((extract_widget w soup).2 = false → (extract_widget w soup).1 = []) ∧
    ((extract_widget w soup).2 = true → (extract_widget w soup).1 ≠ []) := by
  unfold extract_widget
  split
  · exact ⟨fun _ => rfl, fun h => by simp at h⟩
  · split
    · constructor
      · intro h
        simp at h
      · intro _
        show ¬(if _ then _ else _, true).1 = []
        dsimp only
        split
        · simp [placeholderOpp]
        · rename_i hne
          intro hc
          exact hne (by simp [hc])
    · exact ⟨fun _ => rfl, fun h => by simp at h⟩

/-- Claim C9 (confirmed): the extractor's output always satisfies the state
invariant: an EMPTY result carries exactly the empty item list, and an
AVAILABLE result never carries an empty item list (a placeholder item is
substituted when detail extraction finds nothing). -/
theorem C9_invariant (soup : Node) :
    ((extract_opportunities soup).2 = false → (extract_opportunities soup).1 = []) ∧
    ((extract_opportunities soup).2 = true → (extract_opportunities soup).1 ≠ []) := by
  cases hl : locate_widget soup with
  | none =>
      have he : extract_opportunities soup = ([], false) := by
        unfold extract_opportunities
        rw [hl]
        simp
      rw [he]
      exact ⟨fun _ => rfl, fun h => by simp at h⟩
  | some w =>
      rw [extract_opportunities_of_located soup w hl]
      exact extract_widget_inv w soup

/-- Claim C9 witness: concrete instance of `C9_invariant` on the Scenario A
document. -/
theorem C9_witness :
    (extract_opportunities soupA).2 = false ∧ (extract_opportunities soupA).1 = [] :=
  ⟨rfl, (C9_invariant soupA).1 rfl⟩

/-! ### Claim C2 -/

/-- Claim C2 (amended): for a located widget, `has_opportunities` is `False`
not exactly when the widget text contains "No Data": it is `False` iff the
widget text contains "No Data", or an alert-styled `h4` in the widget
contains "No Data" (subsumed by the widget text), or an `sEmptyTable`
script anywhere in the page mentions "No Data" and "opportunity", or the
widget has no table data and its text is blank or mentions "Loading" (the
loading-state guard, which also maps widgets with content-free text to
EMPTY). -/
theorem C2_amended (soup w : Node) (h : locate_widget soup = some w) :
    ((extract_opportunities soup).2 = false ↔
      (widget_text_no_data w = true ∨ h4_no_data w = true ∨ script_no_data soup = true ∨
       (has_table_data w = false ∧
         (pyStrip (getText w) = "" ∨ containsS (getText w) "Loading" = true)))) := by
  rw [extract_opportunities_of_located soup w h]
  unfold extract_widget no_data_check widget_has_content
  cases h1 : widget_text_no_data w <;>
  cases h2 : h4_no_data w <;>
  cases h3 : script_no_data soup <;>
  cases h4 : has_table_data w <;>
  cases h6 : containsS (getText w) "Loading" <;>
  by_cases h5 : pyStrip (getText w) = "" <;>
  simp [h1, h2, h3, h4, h5, h6]

/-- Claim C2 counterexample: a located widget that is completely empty. Its
text does not contain "No Data", yet `extract_opportunities` returns
`has_opportunities = False`, refuting the claimed "True otherwise". -/
theorem C2_counterexample :
    locate_widget soupEmptyWidget = some widgetEmptyDiv ∧
    containsS (getText widgetEmptyDiv) "No Data" = false ∧
    (extract_opportunities soupEmptyWidget).2 = false :=
  ⟨rfl, rfl, rfl⟩

/-- Claim C2 witness: concrete instance of `C2_amended` on the Scenario A
document. -/
theorem C2_witness :
    locate_widget soupA = some widgetA ∧
    ((extract_opportunities soupA).2 = false ↔
      (widget_text_no_data widgetA = true ∨ h4_no_data widgetA = true ∨
       script_no_data soupA = true ∨
       (has_table_data widgetA = false ∧
         (pyStrip (getText widgetA) = "" ∨ containsS (getText widgetA) "Loading" = true)))) :=
  ⟨rfl, C2_amended soupA widgetA rfl⟩

/-! ### The loop of `extract_opportunity_details` versus its declarative form -/

theorem detail_row_step_eq (acc : List String) (row : Node) :
    detail_row_step acc row = acc ++ row_first_cell_item row := by
  unfold detail_row_step row_first_cell_item
  cases hc : findAllNodes (isTag "td") row with
  | nil => simp
  | cons c0 rest =>
      split
      · simp
      · split <;> simp_all

theorem inner_fold_eq (rows : List Node) (acc : List String) :
    rows.foldl detail_row_step acc = acc ++ (rows.map row_first_cell_item).flatten := by
  induction rows generalizing acc with
  | nil => simp
  | cons r t ih =>
      rw [List.foldl_cons, detail_row_step_eq, ih]
      simp

theorem outer_fold_eq (tables : List Node) (acc : List String) :
    tables.foldl
        (fun acc table => ((findAllNodes (isTag "tr") table).drop 1).foldl detail_row_step acc)
        acc =
      acc ++ (tables.map
        (fun t => (((findAllNodes (isTag "tr") t).drop 1).map row_first_cell_item).flatten)).flatten := by
  induction tables generalizing acc with
  | nil => simp
  | cons x t ih =>
      rw [List.foldl_cons]
      rw [ih, inner_fold_eq]
      simp

theorem extract_details_eq_spec (widget : Node) :
    extract_opportunity_details widget = opportunity_rows_spec widget := by
  unfold extract_opportunity_details opportunity_rows_spec
  rw [outer_fold_eq]
  simp

/-! ### Claim C8 -/

/-- Claim C8 (amended): item extraction takes, for each row after the first
`tr` of each table, the stripped text of the first `td` cell as the item
name, skipping the row when that text is empty or equals "No Data" (it does
not fall through to the next non-empty cell), and extracts no detail at
all: for the table row `["Program X", "Download", "program_x.pdf"]` the
extracted item is the bare name `"Program X"`; the third cell is ignored. -/
theorem C8_first_cell_only :
    (∀ w : Node, extract_opportunity_details w = opportunity_rows_spec w) ∧
    extract_opportunity_details widgetB = ["Program X"] :=
  ⟨extract_details_eq_spec, by decide⟩

/-- Claim C8 counterexample: a data row whose cells are
`["", "Program X", "program_x.pdf"]`. The claim ("first non-empty cell as
the item's name") predicts an item named "Program X"; the code reads only
the first cell, finds it empty, and extracts nothing. -/
theorem C8_counterexample :
    extract_opportunity_details widgetEmptyFirstCell = [] := by decide

/-! ### Whitespace-stripping facts for Claim C10 -/

theorem dropWhile_head_false {p : Char → Bool} {a : Char} {t : List Char}
    (h : List.dropWhile p (a :: t) = a :: t) : p a = false := by
  by_contra hp
  have hp2 : p a = true := by simpa using hp
  rw [List.dropWhile_cons, if_pos hp2] at h
  have hs : List.dropWhile p t <:+ t := List.dropWhile_suffix p
  have hlen : (List.dropWhile p t).length ≤ t.length := hs.length_le
  rw [h] at hlen
  simp at hlen

theorem dropWhile_cons_false {p : Char → Bool} {a : Char} (t : List Char)
    (h : p a = false) : List.dropWhile p (a :: t) = a :: t := by
  rw [List.dropWhile_cons, if_neg]
  simp [h]

theorem dropWhile_idem (p : Char → Bool) (l : List Char) :
    List.dropWhile p (List.dropWhile p l) = List.dropWhile p l := by
  induction l with
  | nil => rfl
  | cons a t ih =>
      rw [List.dropWhile_cons]
      split
      · exact ih
      · rename_i hp
        exact dropWhile_cons_false t (by simpa using hp)

theorem dropWhile_fixed_of_pre {p : Char → Bool} {x m : List Char}
    (hx : x <+: m) (hm : List.dropWhile p m = m) : List.dropWhile p x = x := by
  cases x with
  | nil => rfl
  | cons a t =>
      obtain ⟨r, hr⟩ := hx
      rw [← hr, List.cons_append] at hm
      exact dropWhile_cons_false t (dropWhile_head_false hm)

theorem stripLeft_flatten (ps : List (List Char))
    (h : ∀ x ∈ ps, x ≠ [] ∧ stripLeft x = x) : stripLeft ps.flatten = ps.flatten := by
  cases ps with
  | nil => rfl
  | cons x rest =>
      obtain ⟨hx, hfix⟩ := h x (List.mem_cons_self x rest)
      cases x with
      | nil => exact absurd rfl hx
      | cons a t =>
          unfold stripLeft at hfix ⊢
          rw [List.flatten_cons, List.cons_append]
          exact dropWhile_cons_false _ (dropWhile_head_false hfix)

theorem stripRight_rev_fix {m : List Char} (h : stripRight m = m) :
    List.dropWhile isWs m.reverse = m.reverse := by
  unfold stripRight at h
  have h2 := congrArg List.reverse h
  simpa using h2

theorem stripRight_of_rev_fix {m : List Char} (h : List.dropWhile isWs m.reverse = m.reverse) :
    stripRight m = m := by
  unfold stripRight
  rw [h]
  simp

theorem stripRight_flatten (ps : List (List Char))
    (h : ∀ x ∈ ps, x ≠ [] ∧ stripRight x = x) : stripRight ps.flatten = ps.flatten := by
  apply stripRight_of_rev_fix
  rw [List.reverse_flatten]
  show stripLeft ((ps.map List.reverse).reverse).flatten = ((ps.map List.reverse).reverse).flatten
  apply stripLeft_flatten
  intro y hy
  rw [List.mem_reverse, List.mem_map] at hy
  obtain ⟨x, hxps, rfl⟩ := hy
  obtain ⟨hx, hfix⟩ := h x hxps
  refine ⟨by simpa using hx, ?_⟩
  show List.dropWhile isWs x.reverse = x.reverse
  exact stripRight_rev_fix hfix

theorem stripRight_idem (m : List Char) : stripRight (stripRight m) = stripRight m := by
  apply stripRight_of_rev_fix
  unfold stripRight
  rw [List.reverse_reverse]
  exact dropWhile_idem _ _

theorem stripLeft_stripList (l : List Char) : stripLeft (stripList l) = stripList l := by
  unfold stripList
  have hpre : stripRight (stripLeft l) <+: stripLeft l := by
    unfold stripRight
    rw [← List.reverse_suffix, List.reverse_reverse]
    exact List.dropWhile_suffix _
  exact dropWhile_fixed_of_pre hpre (dropWhile_idem _ _)

theorem stripRight_stripList (l : List Char) : stripRight (stripList l) = stripList l :=
  stripRight_idem _

theorem joinS_data (l : List String) : (joinS l).data = (l.map String.data).flatten := by
  induction l with
  | nil => rfl
  | cons s t ih => simp [joinS, String.data_append, ih]

theorem string_eq_empty_of_data (s : String) (h : s.data = []) : s = "" := by
  cases s with
  | mk d => cases h; rfl

theorem pyStrip_eq_self_of (s : String) (h : stripList s.data = s.data) : pyStrip s = s := by
  unfold pyStrip
  rw [h]

/-- The result of `get_text(strip=True)` is itself whitespace-stripped:
stripping a concatenation of stripped non-empty pieces is the identity. -/
theorem pyStrip_getTextStrip (n : Node) : pyStrip (getTextStrip n) = getTextStrip n := by
  apply pyStrip_eq_self_of
  unfold getTextStrip
  rw [joinS_data]
  have hall : ∀ x ∈ (((textPieces n).map pyStrip).filter (fun s => s != "")).map String.data,
      x ≠ [] ∧ stripLeft x = x ∧ stripRight x = x := by
    intro x hx
    rw [List.mem_map] at hx
    obtain ⟨s, hsmem, rfl⟩ := hx
    rw [List.mem_filter] at hsmem
    obtain ⟨hs1, hs2⟩ := hsmem
    rw [List.mem_map] at hs1
    obtain ⟨raw, _, rfl⟩ := hs1
    refine ⟨?_, ?_, ?_⟩
    · intro hnil
      exact bne_iff_ne.mp hs2 (string_eq_empty_of_data _ hnil)
    · exact stripLeft_stripList raw.data
    · exact stripRight_stripList raw.data
  unfold stripList
  rw [stripLeft_flatten _ (fun x hx => ⟨(hall x hx).1, (hall x hx).2.1⟩)]
  exact stripRight_flatten _ (fun x hx => ⟨(hall x hx).1, (hall x hx).2.2⟩)

/-! ### Claim C10 -/

theorem mem_row_first_cell_item {s : String} {row : Node}
    (hs : s ∈ row_first_cell_item row) :
    ∃ c0, (∃ rest, findAllNodes (isTag "td") row = c0 :: rest) ∧ s = getTextStrip c0 ∧
      s ≠ "" ∧ s ≠ "No Data" := by
  unfold row_first_cell_item at hs
  cases hc : findAllNodes (isTag "td") row with
  | nil => rw [hc] at hs; simp at hs
  | cons c0 rest =>
      rw [hc] at hs
      dsimp only at hs
      by_cases hg : (getTextStrip c0 != "" && getTextStrip c0 != "No Data" &&
          decide ((getTextStrip c0).length > 0)) = true
      · rw [if_pos hg] at hs
        rw [List.mem_singleton] at hs
        subst hs
        simp only [Bool.and_eq_true, bne_iff_ne] at hg
        exact ⟨c0, ⟨rest, rfl⟩, rfl, hg.1.1, hg.1.2⟩
      · rw [if_neg hg] at hs
        simp at hs

/-- Claim C10 (confirmed): every string returned by
`extract_opportunity_details` is non-empty, whitespace-stripped, and never
the sentinel "No Data", and the returned list is exactly the first-cell
names of the rows after the first row of each table, in table order then
row order. -/
theorem C10_details_wf (w : Node) :
    (∀ s, s ∈ extract_opportunity_details w → s ≠ "" ∧ pyStrip s = s ∧ s ≠ "No Data") ∧
    extract_opportunity_details w = opportunity_rows_spec w := by
  refine ⟨?_, extract_details_eq_spec w⟩
  intro s hs
  rw [extract_details_eq_spec] at hs
  unfold opportunity_rows_spec at hs
  rw [List.mem_flatten] at hs
  obtain ⟨l1, hl1, hsl1⟩ := hs
  rw [List.mem_map] at hl1
  obtain ⟨t, _, rfl⟩ := hl1
  rw [List.mem_flatten] at hsl1
  obtain ⟨l2, hl2, hsl2⟩ := hsl1
  rw [List.mem_map] at hl2
  obtain ⟨row, _, rfl⟩ := hl2
  obtain ⟨c0, _, rfl, h1, h2⟩ := mem_row_first_cell_item hsl2
  exact ⟨h1, pyStrip_getTextStrip c0, h2⟩

/-- Claim C10 witness: concrete instance of `C10_details_wf` on the
Scenario B widget. -/
theorem C10_witness :
    "Program X" ∈ extract_opportunity_details widgetB ∧
    ("Program X" ≠ "" ∧ pyStrip "Program X" = "Program X" ∧ "Program X" ≠ "No Data") :=
  ⟨by decide, (C10_details_wf widgetB).1 "Program X" (by decide)⟩
